import Mathlib

/-!
Shallow embedding of the uchat credential/session core and the post elements.

Sources embedded:
  * src/shared/domain/src/post.rs        — bounded text types Headline, Message
  * src/backend/server/src/handler/user.rs — to_public, new_session, the
    CreateUser and Login request handlers
  * src/frontend/src/elements/post.rs    — PostManager and PublicPostEntry

External collaborators (uchat_query storage, uchat_crypto primitives, the
nutype macro expansion) are not part of the examined source tree; where a
claim depends on them they are modelled from the specification, and each such
definition carries a doc comment starting with `Modelled from the spec:`.
Strings are Lean `String`s, whose `length` counts characters (Unicode scalar
values), matching the spec's character-count semantics. Timestamps and
durations are integer seconds. Fallible Rust functions returning
`Result<T, E>` become `Except E T`.
-/

namespace UChat

/-! ### Bounded text types (src/shared/domain/src/post.rs) -/

/-- Error type generated by nutype for `Headline` (`max_len` violation). -/
inductive HeadlineError
  | TooLong
deriving DecidableEq, Repr

/-- `pub struct Headline(String)` — wraps the raw string. -/
structure Headline where
  val : String
deriving DecidableEq, Repr

/-- `pub const MAX_CHARS: usize = 30` from `impl Headline`. -/
def Headline.MAX_CHARS : Nat := 30

/-- Modelled from the spec: the validating constructor that the
`#[nutype(validate(max_len = 30))]` macro expansion (not present in the
examined source) generates for `Headline`. Per the spec it "Fails with
`TooLong` when character count (not byte count) exceeds the type's fixed
maximum" and performs no other normalization. The bound `30` is the literal
from the attribute, kept separate from the `MAX_CHARS` constant. -/
def Headline.new (raw : String) : Except HeadlineError Headline :=
  if raw.length > 30 then .error .TooLong else .ok ⟨raw⟩

/-- Error type generated by nutype for `Message` (`max_len` violation). -/
inductive MessageError
  | TooLong
deriving DecidableEq, Repr

/-- `pub struct Message(String)` — wraps the raw string. -/
structure Message where
  val : String
deriving DecidableEq, Repr

/-- `pub const MAX_CHARS: usize = 100` from `impl Message`. -/
def Message.MAX_CHARS : Nat := 100

/-- Modelled from the spec: the validating constructor that the
`#[nutype(validate(max_len = 100))]` macro expansion generates for
`Message`: a pure character-count length gate, no other normalization. -/
def Message.new (raw : String) : Except MessageError Message :=
  if raw.length > 100 then .error .TooLong else .ok ⟨raw⟩

/-! ### Display names and public profiles (src/backend/server/src/handler/user.rs) -/

/-- Error type for `DisplayName` validation. -/
inductive DisplayNameError
  | TooLong
deriving DecidableEq, Repr

/-- Validated display name (uchat_domain::user::DisplayName). -/
structure DisplayName where
  val : String
deriving DecidableEq, Repr

/-- Modelled from the spec: the maximum of the bounded `DisplayName` text
type. The spec fixes no particular number for this type ("optional display
name (validated bounded string)"); 30 is used as a representative bound —
no claim below depends on its exact value. -/
def DisplayName.MAX_CHARS : Nat := 30

/-- Modelled from the spec: validating constructor of the bounded
`DisplayName` text type, a pure character-count length gate like the other
bounded text types. -/
def DisplayName.new (raw : String) : Except DisplayNameError DisplayName :=
  if raw.length > DisplayName.MAX_CHARS then .error .TooLong else .ok ⟨raw⟩

/-- Opaque user identifier. -/
abbrev UserId := Nat

/-- Timestamps are integer seconds. -/
abbrev Timestamp := Int

/-- The `User` record held by storage (uchat_query::user::User), with the
fields the handlers read plus the password-hash record the spec says a user
carries. -/
structure User where
  id : UserId
  display_name : Option String
  handle : String
  email : Option String
  password_hash : String
  created_at : Timestamp
deriving DecidableEq, Repr

/-- The read-only public projection of a user
(uchat_endpoint::user::types::PublicUserProfile). -/
structure PublicUserProfile where
  id : UserId
  display_name : Option DisplayName
  handle : String
  profile_image : Option String
  created_at : Timestamp
  am_following : Bool
deriving DecidableEq, Repr

/-- Server-side error type of `ApiResult`. Modelled from the spec: §7 lists
the error kinds; unknown handle and password mismatch both collapse into the
single generic invalid-credentials outcome, crypto failures surface as
opaque server errors, and a storage uniqueness violation on registration
surfaces as a registration conflict. -/
inductive ApiErr
  | invalidCredentials
  | registrationFailed
  | serverError
deriving DecidableEq, Repr

abbrev ApiResult (α : Type) := Except ApiErr α

/-- `pub fn to_public(user: User) -> ApiResult<PublicUserProfile>` from
src/backend/server/src/handler/user.rs: builds the public projection, with
`display_name: user.display_name.and_then(|name| DisplayName::new(name).ok())`,
`profile_image: None`, `am_following: false`. -/
def to_public (user : User) : ApiResult PublicUserProfile :=
  .ok { id := user.id
        display_name := user.display_name.bind fun name => (DisplayName.new name).toOption
        handle := user.handle
        profile_image := none
        created_at := user.created_at
        am_following := false }

/-! ### Sessions, signing, and the credential flows
(src/backend/server/src/handler/user.rs) -/

/-- Durations are integer seconds (chrono::Duration). -/
abbrev Duration := Int

/-- `Duration::weeks(n)` in seconds. -/
def Duration.weeks (n : Int) : Duration := n * 7 * 24 * 60 * 60

/-- Modelled from the spec: the opaque structured fingerprint payload
attached to a session ("arbitrary structured data reserved for future
device/client binding; currently empty"), as an association list of fields.
The handler builds `serde_json::json!({})`, the empty object `[]`. -/
abbrev Fingerprint := List (String × String)

/-- Session identifier; `as_uuid().as_bytes()` yields its raw bytes. -/
structure SessionId where
  uuid_bytes : List Nat
deriving DecidableEq, Repr

/-- Modelled from the spec: the `Session` row storage returns — identifier,
owning user, fingerprint, creation time, expiry time. -/
structure Session where
  id : SessionId
  user_id : UserId
  fingerprint : Fingerprint
  created_at : Timestamp
  expires_at : Timestamp
deriving DecidableEq, Repr

/-- `pub struct SessionSignature(String)` — the base64-encoded signature. -/
structure SessionSignature where
  sig : String
deriving DecidableEq, Repr

/-- The process-wide random source; cloning copies its current state. -/
structure Rng where
  seed : Nat

/-- `rng.clone()` — a pure copy of the random source. -/
def Rng.clone (r : Rng) : Rng := r

/-- Modelled from the spec: the process-wide signing key pair, exposed as a
signing operation "deterministic given key and message" that consumes a
random source. -/
structure SigningKeys where
  sign : Rng → List Nat → List Nat

/-- The handler's `AppState`: the random source and the signing keys. -/
structure AppState where
  rng : Rng
  signing_keys : SigningKeys

/-- Modelled from the spec: error values of the storage collaborator —
a lookup can find nothing (unknown handle), an insert can hit a uniqueness
violation, and any call can fail generically. -/
inductive QueryErr
  | notFound
  | uniqueViolation
  | other
deriving DecidableEq, Repr

/-- Modelled from the spec: error values of the crypto collaborator (§4.2):
`InvalidCredentials` on verification mismatch, `CorruptHash` on malformed
stored hashes, `HashingFailed` on primitive failure. -/
inductive CryptoErr
  | invalidCredentials
  | corruptHash
  | hashingFailed
deriving DecidableEq, Repr

/-- Modelled from the spec: the `?`-conversion of storage errors into the
server error (§7): an unknown handle "must be folded into the same
externally-visible error as a password mismatch"; a uniqueness violation on
registration surfaces as a registration conflict; anything else as a
generic server failure. -/
def QueryErr.toApi : QueryErr → ApiErr
  | .notFound => .invalidCredentials
  | .uniqueViolation => .registrationFailed
  | .other => .serverError

/-- Modelled from the spec: the `?`-conversion of crypto errors into the
server error (§7): a verification mismatch is the generic invalid-credentials
outcome; hashing/deserialization failures are opaque server errors. -/
def CryptoErr.toApi : CryptoErr → ApiErr
  | .invalidCredentials => .invalidCredentials
  | .corruptHash => .serverError
  | .hashingFailed => .serverError

/-- Characters of the standard base64 alphabet. -/
def b64Chars : List Char :=
  "ABCDEFGHIJKLMNOPQRSTUVWXYZabcdefghijklmnopqrstuvwxyz0123456789+/".toList

/-- The base64 digit for a 6-bit value. -/
def b64Char (n : Nat) : Char := b64Chars.getD n '='

/-- Modelled from the spec: `uchat_crypto::encode_base64` — standard base64
encoding of a byte sequence "for transport/storage as text", with `=`
padding. -/
def encode_base64 : List Nat → String
  | [] => ""
  | [b1] =>
    let a1 := b1 % 256
    String.mk [b64Char (a1 / 4), b64Char (a1 % 4 * 16), '=', '=']
  | [b1, b2] =>
    let a1 := b1 % 256
    let a2 := b2 % 256
    String.mk [b64Char (a1 / 4), b64Char (a1 % 4 * 16 + a2 / 16),
               b64Char (a2 % 16 * 4), '=']
  | b1 :: b2 :: b3 :: rest =>
    let a1 := b1 % 256
    let a2 := b2 % 256
    let a3 := b3 % 256
    String.mk [b64Char (a1 / 4), b64Char (a1 % 4 * 16 + a2 / 16),
               b64Char (a2 % 16 * 4 + a3 / 64), b64Char (a3 % 64)]
      ++ encode_base64 rest

/-- The external collaborators the handlers call (storage and crypto, §6),
plus the clock read by `Utc::now()`. Each handler run consults one
environment. -/
structure Env where
  hash_password : String → Except CryptoErr String
  user_new : String → String → Except QueryErr UserId
  get_password_hash : String → Except QueryErr String
  deserialize_hash : String → Except CryptoErr String
  verify_password : String → String → Except CryptoErr Unit
  find_user : String → Except QueryErr User
  session_new : UserId → Duration → Fingerprint → Except QueryErr Session
  now : Timestamp

/-- One entry of the call trace a flow produces: which collaborator was
invoked, with the arguments that identify the call. -/
inductive Event
  | hashPassword
  | createUser (handle : String)
  | getPasswordHash (handle : String)
  | deserializeHash (stored : String)
  | verifyPassword
  | findUser (handle : String)
  | sessionNew (uid : UserId)
  | signBytes (bytes : List Nat)
deriving DecidableEq, Repr

/-- `fn new_session(state, conn, user_id)` from the handler: build the empty
fingerprint, fix the duration to three weeks, ask storage for a session,
sign the raw bytes of its identifier with a cloned random source, and
base64-encode the signature. The second component is the trace of
collaborator calls made. -/
def new_session (env : Env) (state : AppState) (user_id : UserId) :
    ApiResult (Session × SessionSignature × Duration) × List Event :=
  let fingerprint : Fingerprint := []
  let session_duration := Duration.weeks 3
  match env.session_new user_id session_duration fingerprint with
  | .error e => (.error e.toApi, [.sessionNew user_id])
  | .ok session =>
    let rng := state.rng.clone
    let signature := state.signing_keys.sign rng session.id.uuid_bytes
    let signature := encode_base64 signature
    (.ok (session, ⟨signature⟩, session_duration),
     [.sessionNew user_id, .signBytes session.id.uuid_bytes])

/-- HTTP status codes are bare numbers here. -/
abbrev StatusCode := Nat

def StatusCode.CREATED : StatusCode := 201

def StatusCode.OK : StatusCode := 200

/-- The `CreateUser` request body: `{ username, password }`. -/
structure CreateUser where
  username : String
  password : String
deriving DecidableEq, Repr

/-- The `Login` request body: `{ username, password }`. -/
structure Login where
  username : String
  password : String
deriving DecidableEq, Repr

/-- The `CreateUserOk` response body built by the handler. -/
structure CreateUserOk where
  user_id : UserId
  username : String
  session_signature : String
  session_id : SessionId
  session_expires : Timestamp
deriving DecidableEq, Repr

/-- The `LoginOk` response body built by the handler. -/
structure LoginOk where
  session_id : SessionId
  session_expires : Timestamp
  session_signature : String
  display_name : Option String
  email : Option String
  profile_image : Option String
  user_id : UserId
deriving DecidableEq, Repr

/-- `impl PublicApiRequest for CreateUser` — hash the password, create the
user row, issue a session, respond `201 CREATED` with the confirmation body
whose expiry is `Utc::now() + duration`. Each `?` propagates the converted
error; the second component is the trace of collaborator calls made. -/
def CreateUser.process_request (env : Env) (state : AppState) (self : CreateUser) :
    ApiResult (StatusCode × CreateUserOk) × List Event :=
  match env.hash_password self.password with
  | .error e => (.error e.toApi, [.hashPassword])
  | .ok password_hash =>
    match env.user_new password_hash self.username with
    | .error e => (.error e.toApi, [.hashPassword, .createUser self.username])
    | .ok user_id =>
      match new_session env state user_id with
      | (.error e, tr) =>
        (.error e, [.hashPassword, .createUser self.username] ++ tr)
      | (.ok (session, signature, duration), tr) =>
        (.ok (StatusCode.CREATED,
              { user_id := user_id
                username := self.username
                session_signature := signature.sig
                session_id := session.id
                session_expires := env.now + duration }),
         [.hashPassword, .createUser self.username] ++ tr)

/-- `impl PublicApiRequest for Login` — look up the stored password hash by
handle, deserialize it, verify the supplied password, fetch the user, issue
a session, respond `200 OK` with the login body whose expiry is
`Utc::now() + duration`. Each `?` propagates the converted error; the second
component is the trace of collaborator calls made. -/
def Login.process_request (env : Env) (state : AppState) (self : Login) :
    ApiResult (StatusCode × LoginOk) × List Event :=
  match env.get_password_hash self.username with
  | .error e => (.error e.toApi, [.getPasswordHash self.username])
  | .ok hash =>
    match env.deserialize_hash hash with
    | .error e =>
      (.error e.toApi, [.getPasswordHash self.username, .deserializeHash hash])
    | .ok parsed =>
      match env.verify_password self.password parsed with
      | .error e =>
        (.error e.toApi,
         [.getPasswordHash self.username, .deserializeHash hash, .verifyPassword])
      | .ok _ =>
        match env.find_user self.username with
        | .error e =>
          (.error e.toApi,
           [.getPasswordHash self.username, .deserializeHash hash, .verifyPassword,
            .findUser self.username])
        | .ok user =>
          match new_session env state user.id with
          | (.error e, tr) =>
            (.error e,
             [.getPasswordHash self.username, .deserializeHash hash, .verifyPassword,
              .findUser self.username] ++ tr)
          | (.ok (session, signature, duration), tr) =>
            (.ok (StatusCode.OK,
                  { session_id := session.id
                    session_expires := env.now + duration
                    session_signature := signature.sig
                    display_name := user.display_name
                    email := user.email
                    profile_image := none
                    user_id := user.id }),
             [.getPasswordHash self.username, .deserializeHash hash, .verifyPassword,
              .findUser self.username] ++ tr)

/-! ### Frontend post manager (src/frontend/src/elements/post.rs) -/

/-- Opaque post identifier. -/
abbrev PostId := Nat

/-- The post payload cached by the frontend
(uchat_endpoint::post::types::PublicPost), with the fields the elements
read. -/
structure PublicPost where
  id : PostId
  by_user_display_name : Option String
  by_user_handle : String
  time_posted : Timestamp
  content : String
deriving DecidableEq, Repr

/-- `pub struct PostManager { pub posts: IndexMap<PostId, PublicPost> }`:
the insertion-ordered map is embedded as an ordered association list with
unique keys maintained by its operations. -/
structure PostManager where
  posts : List (PostId × PublicPost)
deriving DecidableEq, Repr

/-- `IndexMap::get_mut` + in-place update on the entry with the given key:
rewrites the first entry whose key matches and reports whether one was
found, leaving every other entry in place. -/
def updateEntries (l : List (PostId × PublicPost)) (id : PostId)
    (f : PublicPost → PublicPost) : List (PostId × PublicPost) × Bool :=
  match l with
  | [] => ([], false)
  | (k, v) :: rest =>
    if k = id then ((k, f v) :: rest, true)
    else
      let r := updateEntries rest id f
      ((k, v) :: r.1, r.2)

/-- `PostManager::update` — if a post with the id is present, apply the
update closure to it and return `true`; otherwise return `false`. -/
def PostManager.update (m : PostManager) (id : PostId)
    (f : PublicPost → PublicPost) : PostManager × Bool :=
  let r := updateEntries m.posts id f
  (⟨r.1⟩, r.2)

/-- `IndexMap::get` on the association-list embedding: the value of the
first entry with the given key, if any. -/
def getEntry (l : List (PostId × PublicPost)) (post_id : PostId) :
    Option PublicPost :=
  match l with
  | [] => none
  | (k, v) :: rest => if k = post_id then some v else getEntry rest post_id

/-- `PostManager::get` — `self.posts.get(post_id)`. -/
def PostManager.get (m : PostManager) (post_id : PostId) : Option PublicPost :=
  getEntry m.posts post_id

/-- `PostManager::remove` — `self.posts.remove(post_id)` drops the entry. -/
def PostManager.remove (m : PostManager) (post_id : PostId) : PostManager :=
  ⟨m.posts.filter fun p => p.1 ≠ post_id⟩

/-- `PostManager::clear` — drops every entry. -/
def PostManager.clear (_ : PostManager) : PostManager := ⟨[]⟩

/-- Outcome of rendering a component: either a panic or the rendered data. -/
inductive RenderOutcome
  | panicked
  | rendered (post : PublicPost)
deriving DecidableEq, Repr

/-- The `PublicPostEntry` component body: it looks the `post_id` up in the
post manager and calls `.unwrap()` on the result — `None` panics, `Some`
yields the post the element renders. -/
def PublicPostEntry (m : PostManager) (post_id : PostId) : RenderOutcome :=
  match m.get post_id with
  | none => .panicked
  | some post => .rendered post

/-! ### Concrete fixtures used by the witnesses -/

/-- A concrete stored user. -/
def userAlice : User :=
  { id := 7
    display_name := some "Alice"
    handle := "alice"
    email := none
    password_hash := "stored-hash"
    created_at := 500 }

/-- A concrete environment in which the user `alice` exists with password
`correct-horse`, and storage and crypto succeed. -/
def envOk : Env :=
  { hash_password := fun _ => .ok "fresh-hash"
    user_new := fun _ _ => .ok 7
    get_password_hash := fun u =>
      if u = "alice" then .ok "stored-hash" else .error .notFound
    deserialize_hash := fun h => .ok h
    verify_password := fun p h =>
      if p = "correct-horse" ∧ h = "stored-hash" then .ok ()
      else .error .invalidCredentials
    find_user := fun u => if u = "alice" then .ok userAlice else .error .notFound
    session_new := fun uid d fp =>
      .ok { id := ⟨[1, 2, 3, 4]⟩
            user_id := uid
            fingerprint := fp
            created_at := 1000
            expires_at := 1000 + d }
    now := 1000 }

/-- A concrete application state whose signer returns the message bytes. -/
def stateOk : AppState :=
  { rng := ⟨0⟩
    signing_keys := ⟨fun _ bytes => bytes⟩ }

/-- A concrete user whose stored display name is 31 characters long. -/
def userBadName : User :=
  { id := 1
    display_name := some (String.mk (List.replicate 31 'x'))
    handle := "h"
    email := some "e"
    password_hash := "p"
    created_at := 0 }

/-- A concrete post. -/
def postTwo : PublicPost :=
  { id := 2
    by_user_display_name := none
    by_user_handle := "alice"
    time_posted := 100
    content := "hi" }

/-- A second concrete post. -/
def postFive : PublicPost :=
  { id := 5
    by_user_display_name := some "Alice"
    by_user_handle := "alice"
    time_posted := 200
    content := "hello again" }

/-- A concrete post manager holding posts 2 and 5. -/
def pmEx : PostManager := ⟨[(2, postTwo), (5, postFive)]⟩

/-- A concrete update closure. -/
def pfEx (p : PublicPost) : PublicPost := { p with content := "edited" }

end UChat

namespace UChat

/-! ### Theorems: bounded text -/

/-- C3: for every input string, `Headline::new` and `Message::new` fail with
`TooLong` exactly when the string's character count exceeds the type's fixed
maximum (30 resp. 100), and on failure the result carries no value at all,
so no partial value is observable. -/
theorem bounded_text_too_long_iff (s : String) :
    (Headline.new s = .error .TooLong ↔ s.length > Headline.MAX_CHARS) ∧
    (Message.new s = .error .TooLong ↔ s.length > Message.MAX_CHARS) ∧
    (∀ e : HeadlineError, Headline.new s = .error e → ∀ h, Headline.new s ≠ .ok h) ∧
    (∀ e : MessageError, Message.new s = .error e → ∀ m, Message.new s ≠ .ok m) := by
  refine ⟨?_, ?_, ?_, ?_⟩
  · unfold Headline.new Headline.MAX_CHARS
    by_cases h : s.length > 30 <;> simp [h]
  · unfold Message.new Message.MAX_CHARS
    by_cases h : s.length > 100 <;> simp [h]
  · intro e he h hok
    rw [he] at hok
    exact Except.noConfusion hok
  · intro e he m hok
    rw [he] at hok
    exact Except.noConfusion hok

/-- C3 witness at a concrete 31-character string. -/
theorem bounded_text_too_long_iff_witness :
    Headline.new (String.mk (List.replicate 31 'a')) = .error .TooLong :=
  (bounded_text_too_long_iff (String.mk (List.replicate 31 'a'))).1.mpr (by decide)

/-- C4: for every input string whose character count is at most the type's
maximum, construction succeeds and stores the input string unchanged, so the
stored value's character count equals the input's. -/
theorem bounded_text_ok_unchanged (s : String) :
    (s.length ≤ Headline.MAX_CHARS → Headline.new s = .ok ⟨s⟩) ∧
    (s.length ≤ Message.MAX_CHARS → Message.new s = .ok ⟨s⟩) := by
  constructor
  · intro h
    unfold Headline.new
    rw [if_neg]
    unfold Headline.MAX_CHARS at h
    omega
  · intro h
    unfold Message.new
    rw [if_neg]
    unfold Message.MAX_CHARS at h
    omega

/-- C4 witness: the 5-character string "hello" is stored unchanged by both
constructors. -/
theorem bounded_text_ok_unchanged_witness :
    Headline.new "hello" = .ok ⟨"hello"⟩ ∧ Message.new "hello" = .ok ⟨"hello"⟩ :=
  ⟨(bounded_text_ok_unchanged "hello").1 (by decide),
   (bounded_text_ok_unchanged "hello").2 (by decide)⟩

/-! ### Helper lemmas about new_session (shared by several theorems) -/

theorem new_session_err_helper (env : Env) (state : AppState) (uid : UserId)
    (e : QueryErr)
    (h : env.session_new uid (Duration.weeks 3) ([] : Fingerprint) = .error e) :
    new_session env state uid = (.error e.toApi, [.sessionNew uid]) := by
  simp [new_session, h]

theorem new_session_ok_helper (env : Env) (state : AppState) (uid : UserId)
    (session : Session)
    (h : env.session_new uid (Duration.weeks 3) ([] : Fingerprint) = .ok session) :
    new_session env state uid =
      (.ok (session,
            ⟨encode_base64
              (state.signing_keys.sign state.rng.clone session.id.uuid_bytes)⟩,
            Duration.weeks 3),
       [.sessionNew uid, .signBytes session.id.uuid_bytes]) := by
  simp [new_session, h]

theorem new_session_trace_uid (env : Env) (state : AppState) (uid u2 : UserId)
    (h : Event.sessionNew u2 ∈ (new_session env state uid).2) : u2 = uid := by
  rcases hsn : env.session_new uid (Duration.weeks 3) ([] : Fingerprint) with e | s <;>
    simp [new_session, hsn] at h <;> exact h

theorem new_session_fst_ok_helper (env : Env) (state : AppState) (uid : UserId)
    (s : Session) (sig : SessionSignature) (d : Duration)
    (h : (new_session env state uid).1 = .ok (s, sig, d)) :
    d = Duration.weeks 3 ∧
    env.session_new uid (Duration.weeks 3) ([] : Fingerprint) = .ok s := by
  rcases hsn : env.session_new uid (Duration.weeks 3) ([] : Fingerprint) with e | session
  · rw [new_session_err_helper env state uid e hsn] at h
    exact absurd h (by simp)
  · rw [new_session_ok_helper env state uid session hsn] at h
    simp at h
    obtain ⟨h1, _, h3⟩ := h
    refine ⟨h3.symm, ?_⟩
    rw [← h1]

/-- C6: for every user identifier, a successful call to `new_session` asks
storage for a session with the empty fingerprint and the fixed three-week
duration, signs exactly the raw bytes of the returned session identifier
with the process-wide signing key and a cloned random source, base64-encodes
the signature, and returns the session, the encoded signature, and the
duration used; a storage failure propagates as the converted error. -/
theorem new_session_builds_and_signs (env : Env) (state : AppState) (uid : UserId) :
    (∀ session, env.session_new uid (Duration.weeks 3) ([] : Fingerprint) = .ok session →
      new_session env state uid =
        (.ok (session,
              ⟨encode_base64
                (state.signing_keys.sign state.rng.clone session.id.uuid_bytes)⟩,
              Duration.weeks 3),
         [.sessionNew uid, .signBytes session.id.uuid_bytes])) ∧
    (∀ e, env.session_new uid (Duration.weeks 3) ([] : Fingerprint) = .error e →
      new_session env state uid = (.error e.toApi, [.sessionNew uid])) := by
  constructor
  · intro session h
    exact new_session_ok_helper env state uid session h
  · intro e h
    exact new_session_err_helper env state uid e h

/-- C6 witness: in the concrete environment the session for user 7 is
issued with the empty fingerprint and three-week duration, and its id bytes
`[1, 2, 3, 4]` are signed (the concrete signer is the identity) and
base64-encoded to `"AQIDBA=="`. -/
theorem new_session_builds_and_signs_witness :
    new_session envOk stateOk 7 =
      (.ok ({ id := ⟨[1, 2, 3, 4]⟩
              user_id := 7
              fingerprint := []
              created_at := 1000
              expires_at := 1000 + Duration.weeks 3 },
            ⟨"AQIDBA=="⟩,
            Duration.weeks 3),
       [.sessionNew 7, .signBytes [1, 2, 3, 4]]) := by
  have h := (new_session_builds_and_signs envOk stateOk 7).1
    { id := ⟨[1, 2, 3, 4]⟩
      user_id := 7
      fingerprint := []
      created_at := 1000
      expires_at := 1000 + Duration.weeks 3 } (by rfl)
  rw [h]
  rfl

/-- C5: every successfully issued session uses the fixed duration of exactly
3 weeks, and the `session_expires` timestamp in both the `CreateUser` and
`Login` success responses equals the issuance-time clock reading plus that
3-week duration. -/
theorem session_duration_three_weeks (env : Env) (state : AppState) :
    (∀ uid s sig d, (new_session env state uid).1 = .ok (s, sig, d) →
       d = Duration.weeks 3) ∧
    (∀ (self : CreateUser) code ok,
       (CreateUser.process_request env state self).1 = .ok (code, ok) →
       ok.session_expires = env.now + Duration.weeks 3) ∧
    (∀ (self : Login) code ok,
       (Login.process_request env state self).1 = .ok (code, ok) →
       ok.session_expires = env.now + Duration.weeks 3) := by
  refine ⟨?_, ?_, ?_⟩
  · intro uid s sig d h
    exact (new_session_fst_ok_helper env state uid s sig d h).1
  · intro self code ok h
    rcases hhp : env.hash_password self.password with e | ph
    · simp [CreateUser.process_request, hhp] at h
    rcases hun : env.user_new ph self.username with e | uid
    · simp [CreateUser.process_request, hhp, hun] at h
    rcases hsn : env.session_new uid (Duration.weeks 3) ([] : Fingerprint) with e | session
    · rw [CreateUser.process_request] at h
      simp [hhp, hun, new_session_err_helper env state uid e hsn] at h
    · rw [CreateUser.process_request] at h
      simp [hhp, hun, new_session_ok_helper env state uid session hsn] at h
      rw [← h.2]
  · intro self code ok h
    rcases hget : env.get_password_hash self.username with e | hash
    · simp [Login.process_request, hget] at h
    rcases hdes : env.deserialize_hash hash with e | parsed
    · simp [Login.process_request, hget, hdes] at h
    rcases hver : env.verify_password self.password parsed with e | u
    · simp [Login.process_request, hget, hdes, hver] at h
    rcases hfind : env.find_user self.username with e | user
    · simp [Login.process_request, hget, hdes, hver, hfind] at h
    rcases hsn : env.session_new user.id (Duration.weeks 3) ([] : Fingerprint) with e | session
    · rw [Login.process_request] at h
      simp [hget, hdes, hver, hfind,
        new_session_err_helper env state user.id e hsn] at h
    · rw [Login.process_request] at h
      simp [hget, hdes, hver, hfind,
        new_session_ok_helper env state user.id session hsn] at h
      rw [← h.2]

/-- C5 witness: the concrete successful login as `alice` produces the
response body whose expiry is the concrete clock reading 1000 plus three
weeks. -/
theorem session_duration_three_weeks_witness :
    ({ session_id := ⟨[1, 2, 3, 4]⟩
       session_expires := 1000 + Duration.weeks 3
       session_signature := "AQIDBA=="
       display_name := some "Alice"
       email := none
       profile_image := none
       user_id := 7 } : LoginOk).session_expires = envOk.now + Duration.weeks 3 :=
  (session_duration_three_weeks envOk stateOk).2.2
    ⟨"alice", "correct-horse"⟩ StatusCode.OK _ (by rfl)

/-- C1: in the Login flow, a lookup failure for a non-existent handle and a
password-verification failure for an existing handle produce the identical
externally visible error value — the single generic invalid-credentials
outcome — for every username and password input. -/
theorem login_failures_collapse (env : Env) (state : AppState)
    (self1 self2 : Login) (hash parsed : String)
    (h1 : env.get_password_hash self1.username = .error .notFound)
    (h2 : env.get_password_hash self2.username = .ok hash)
    (h3 : env.deserialize_hash hash = .ok parsed)
    (h4 : env.verify_password self2.password parsed = .error .invalidCredentials) :
    (Login.process_request env state self1).1 = .error .invalidCredentials ∧
    (Login.process_request env state self2).1 = .error .invalidCredentials := by
  constructor
  · simp [Login.process_request, h1, QueryErr.toApi]
  · simp [Login.process_request, h2, h3, h4, CryptoErr.toApi]

/-- C1 witness: in the concrete environment, logging in as the non-existent
`bob` and logging in as the existing `alice` with a wrong password produce
the same `invalidCredentials` error value. -/
theorem login_failures_collapse_witness :
    (Login.process_request envOk stateOk ⟨"bob", "pw"⟩).1 =
      .error .invalidCredentials ∧
    (Login.process_request envOk stateOk ⟨"alice", "wrong"⟩).1 =
      .error .invalidCredentials :=
  login_failures_collapse envOk stateOk ⟨"bob", "pw"⟩ ⟨"alice", "wrong"⟩
    "stored-hash" "stored-hash" rfl rfl rfl rfl

/-- C2: in both flows, session issuance is reached only after every
preceding step succeeds — a `sessionNew` call appears in the trace only if
hash lookup, hash deserialization, and password verification (Login), or
password hashing and user creation (Register), all returned success — and a
successful response likewise implies every step succeeded, so any step's
failure terminates the flow in an error without issuing a session. -/
theorem session_requires_successful_steps (env : Env) (state : AppState) :
    (∀ (self : Login) (uid : UserId),
       Event.sessionNew uid ∈ (Login.process_request env state self).2 →
       ∃ hash parsed user,
         env.get_password_hash self.username = .ok hash ∧
         env.deserialize_hash hash = .ok parsed ∧
         env.verify_password self.password parsed = .ok () ∧
         env.find_user self.username = .ok user ∧ uid = user.id) ∧
    (∀ (self : CreateUser) (uid : UserId),
       Event.sessionNew uid ∈ (CreateUser.process_request env state self).2 →
       ∃ password_hash,
         env.hash_password self.password = .ok password_hash ∧
         env.user_new password_hash self.username = .ok uid) ∧
    (∀ (self : Login) r,
       (Login.process_request env state self).1 = .ok r →
       ∃ hash parsed user,
         env.get_password_hash self.username = .ok hash ∧
         env.deserialize_hash hash = .ok parsed ∧
         env.verify_password self.password parsed = .ok () ∧
         env.find_user self.username = .ok user) ∧
    (∀ (self : CreateUser) r,
       (CreateUser.process_request env state self).1 = .ok r →
       ∃ password_hash user_id,
         env.hash_password self.password = .ok password_hash ∧
         env.user_new password_hash self.username = .ok user_id) := by
  refine ⟨?_, ?_, ?_, ?_⟩
  · intro self uid hmem
    rcases hget : env.get_password_hash self.username with e | hash
    · simp [Login.process_request, hget] at hmem
    rcases hdes : env.deserialize_hash hash with e | parsed
    · simp [Login.process_request, hget, hdes] at hmem
    rcases hver : env.verify_password self.password parsed with e | u
    · simp [Login.process_request, hget, hdes, hver] at hmem
    rcases hfind : env.find_user self.username with e | user
    · simp [Login.process_request, hget, hdes, hver, hfind] at hmem
    cases u
    have huid : uid = user.id := by
      rcases hsn : env.session_new user.id (Duration.weeks 3) ([] : Fingerprint)
        with e | session
      · rw [Login.process_request] at hmem
        simp [hget, hdes, hver, hfind,
          new_session_err_helper env state user.id e hsn] at hmem
        exact hmem
      · rw [Login.process_request] at hmem
        simp [hget, hdes, hver, hfind,
          new_session_ok_helper env state user.id session hsn] at hmem
        exact hmem
    exact ⟨hash, parsed, user, rfl, hdes, hver, rfl, huid⟩
  · intro self uid hmem
    rcases hhp : env.hash_password self.password with e | ph
    · simp [CreateUser.process_request, hhp] at hmem
    rcases hun : env.user_new ph self.username with e | uid2
    · simp [CreateUser.process_request, hhp, hun] at hmem
    have huid : uid = uid2 := by
      rcases hsn : env.session_new uid2 (Duration.weeks 3) ([] : Fingerprint)
        with e | session
      · rw [CreateUser.process_request] at hmem
        simp [hhp, hun, new_session_err_helper env state uid2 e hsn] at hmem
        exact hmem
      · rw [CreateUser.process_request] at hmem
        simp [hhp, hun, new_session_ok_helper env state uid2 session hsn] at hmem
        exact hmem
    refine ⟨ph, rfl, ?_⟩
    rw [huid]
    exact hun
  · intro self r h
    rcases hget : env.get_password_hash self.username with e | hash
    · simp [Login.process_request, hget] at h
    rcases hdes : env.deserialize_hash hash with e | parsed
    · simp [Login.process_request, hget, hdes] at h
    rcases hver : env.verify_password self.password parsed with e | u
    · simp [Login.process_request, hget, hdes, hver] at h
    rcases hfind : env.find_user self.username with e | user
    · simp [Login.process_request, hget, hdes, hver, hfind] at h
    cases u
    exact ⟨hash, parsed, user, rfl, hdes, hver, rfl⟩
  · intro self r h
    rcases hhp : env.hash_password self.password with e | ph
    · simp [CreateUser.process_request, hhp] at h
    rcases hun : env.user_new ph self.username with e | uid
    · simp [CreateUser.process_request, hhp, hun] at h
    exact ⟨ph, uid, rfl, hun⟩

/-- C2 witness: in the concrete environment, the trace of a successful login
as `alice` contains the session-issuance call for user 7, and the theorem
yields the successful lookup, deserialization, verification, and user fetch
that preceded it. -/
theorem session_requires_successful_steps_witness :
    ∃ hash parsed user,
      envOk.get_password_hash "alice" = .ok hash ∧
      envOk.deserialize_hash hash = .ok parsed ∧
      envOk.verify_password "correct-horse" parsed = .ok () ∧
      envOk.find_user "alice" = .ok user ∧ (7 : UserId) = user.id :=
  (session_requires_successful_steps envOk stateOk).1
    ⟨"alice", "correct-horse"⟩ 7 (by decide)

/-- C7: each bounded text type exposes its maximum as a named constant equal
to the bound actually enforced by construction: `Headline.MAX_CHARS = 30`,
`Message.MAX_CHARS = 100`, and construction succeeds exactly on strings of
character count at most that constant. -/
theorem max_chars_constants_match_enforcement :
    Headline.MAX_CHARS = 30 ∧ Message.MAX_CHARS = 100 ∧
    (∀ s : String, (∃ h, Headline.new s = .ok h) ↔ s.length ≤ Headline.MAX_CHARS) ∧
    (∀ s : String, (∃ m, Message.new s = .ok m) ↔ s.length ≤ Message.MAX_CHARS) := by
  refine ⟨rfl, rfl, ?_, ?_⟩
  · intro s
    unfold Headline.new Headline.MAX_CHARS
    by_cases h : s.length > 30 <;> simp [h] <;> omega
  · intro s
    unfold Message.new Message.MAX_CHARS
    by_cases h : s.length > 100 <;> simp [h] <;> omega

/-! ### Theorems: public profile projection -/

/-- C8: `to_public` always succeeds and returns exactly the projection whose
`profile_image` is `None` and `am_following` is `false`; the output depends
only on the id, display name, handle, and creation time (so never on the
password hash, the email, or any session material); and a stored display
name that fails `DisplayName` validation is silently dropped to `None`
rather than causing an error. -/
theorem to_public_projection (user : User) :
    (to_public user =
      .ok { id := user.id
            display_name :=
              user.display_name.bind fun name => (DisplayName.new name).toOption
            handle := user.handle
            profile_image := none
            created_at := user.created_at
            am_following := false }) ∧
    (∀ u2 : User, u2.id = user.id → u2.display_name = user.display_name →
       u2.handle = user.handle → u2.created_at = user.created_at →
       to_public u2 = to_public user) ∧
    (∀ s e, user.display_name = some s → DisplayName.new s = .error e →
       ∃ p, to_public user = .ok p ∧ p.display_name = none ∧
            p.profile_image = none ∧ p.am_following = false) := by
  refine ⟨rfl, ?_, ?_⟩
  · intro u2 h1 h2 h3 h4
    unfold to_public
    rw [h1, h2, h3, h4]
  · intro s e hs he
    refine ⟨_, rfl, ?_, rfl, rfl⟩
    simp [to_public, hs, he, Except.toOption]

/-- C8 witness: the concrete user whose stored display name is 31
characters long is projected with `display_name = None`, `profile_image =
None`, and `am_following = false`. -/
theorem to_public_projection_witness :
    ∃ p, to_public userBadName = .ok p ∧ p.display_name = none ∧
         p.profile_image = none ∧ p.am_following = false :=
  (to_public_projection userBadName).2.2 (String.mk (List.replicate 31 'x'))
    .TooLong rfl rfl

/-! ### Theorems: frontend post manager -/

theorem updateEntries_found_iff (l : List (PostId × PublicPost)) (id : PostId)
    (f : PublicPost → PublicPost) :
    (updateEntries l id f).2 = true ↔ id ∈ l.map Prod.fst := by
  induction l with
  | nil => simp [updateEntries]
  | cons hd tl ih =>
    obtain ⟨k, v⟩ := hd
    by_cases hk : k = id
    · subst hk
      simp [updateEntries]
    · simp [updateEntries, hk, ih]
      intro h
      exact absurd h.symm hk

theorem updateEntries_keys (l : List (PostId × PublicPost)) (id : PostId)
    (f : PublicPost → PublicPost) :
    (updateEntries l id f).1.map Prod.fst = l.map Prod.fst := by
  induction l with
  | nil => simp [updateEntries]
  | cons hd tl ih =>
    obtain ⟨k, v⟩ := hd
    by_cases hk : k = id <;> simp [updateEntries, hk, ih]

theorem updateEntries_get_eq (l : List (PostId × PublicPost)) (id : PostId)
    (f : PublicPost → PublicPost) :
    getEntry (updateEntries l id f).1 id = (getEntry l id).map f := by
  induction l with
  | nil => simp [updateEntries, getEntry]
  | cons hd tl ih =>
    obtain ⟨k, v⟩ := hd
    by_cases hk : k = id <;> simp [updateEntries, getEntry, hk, ih]

theorem updateEntries_get_ne (l : List (PostId × PublicPost)) (id k2 : PostId)
    (f : PublicPost → PublicPost) (h : k2 ≠ id) :
    getEntry (updateEntries l id f).1 k2 = getEntry l k2 := by
  induction l with
  | nil => simp [updateEntries]
  | cons hd tl ih =>
    obtain ⟨k, v⟩ := hd
    by_cases hk : k = id
    · subst hk
      have hkk : ¬ k = k2 := fun hh => h hh.symm
      simp [updateEntries, getEntry, hkk]
    · simp only [updateEntries, hk, if_false]
      by_cases hk2 : k = k2 <;> simp [getEntry, hk2, ih]

theorem updateEntries_not_found (l : List (PostId × PublicPost)) (id : PostId)
    (f : PublicPost → PublicPost) (h : id ∉ l.map Prod.fst) :
    updateEntries l id f = (l, false) := by
  induction l with
  | nil => simp [updateEntries]
  | cons hd tl ih =>
    obtain ⟨k, v⟩ := hd
    rw [List.map_cons, List.mem_cons] at h
    push_neg at h
    have hk : ¬ k = id := fun hh => h.1 hh.symm
    have htl := ih h.2
    simp [updateEntries, hk, htl]

/-- C9: `PostManager::update` returns `true` exactly when a post with the
given id is present; it maps the update closure over exactly that post's
value, leaves every other post's value untouched, never changes the ordered
set of post ids, and when the id is absent it returns `false` leaving the
manager entirely unchanged. -/
theorem postmanager_update_frame (m : PostManager) (id : PostId)
    (f : PublicPost → PublicPost) :
    ((m.update id f).2 = true ↔ id ∈ m.posts.map Prod.fst) ∧
    ((m.update id f).1.posts.map Prod.fst = m.posts.map Prod.fst) ∧
    ((m.update id f).1.get id = (m.get id).map f) ∧
    (∀ k, k ≠ id → (m.update id f).1.get k = m.get k) ∧
    (id ∉ m.posts.map Prod.fst → m.update id f = (m, false)) := by
  refine ⟨?_, ?_, ?_, ?_, ?_⟩
  · exact updateEntries_found_iff m.posts id f
  · exact updateEntries_keys m.posts id f
  · exact updateEntries_get_eq m.posts id f
  · intro k hk
    exact updateEntries_get_ne m.posts id k f hk
  · intro h
    simp [PostManager.update, updateEntries_not_found m.posts id f h]

/-- C9 witness: in the concrete two-post manager, updating post 5 leaves
post 2 unchanged, and updating the absent id 9 returns `false` with the
manager unchanged. -/
theorem postmanager_update_frame_witness :
    (pmEx.update 5 pfEx).1.get 2 = pmEx.get 2 ∧
    pmEx.update 9 pfEx = (pmEx, false) :=
  ⟨(postmanager_update_frame pmEx 5 pfEx).2.2.2.1 2 (by decide),
   (postmanager_update_frame pmEx 9 pfEx).2.2.2.2 (by decide)⟩

/-- C10: rendering `PublicPostEntry` with a `post_id` that is not present in
the post manager panics (the lookup result is unwrapped without a `None`
branch); when the post has already been loaded, rendering is safe and shows
that post. -/
theorem publicpostentry_unloaded_panics (m : PostManager) (post_id : PostId) :
    (m.get post_id = none → PublicPostEntry m post_id = .panicked) ∧
    (∀ post, m.get post_id = some post →
       PublicPostEntry m post_id = .rendered post) := by
  constructor
  · intro h
    simp [PublicPostEntry, h]
  · intro post h
    simp [PublicPostEntry, h]

/-- C10 witness: the concrete manager holds posts 2 and 5 only, so rendering
id 9 panics while rendering id 2 yields post 2. -/
theorem publicpostentry_unloaded_panics_witness :
    PublicPostEntry pmEx 9 = .panicked ∧
    PublicPostEntry pmEx 2 = .rendered postTwo :=
  ⟨(publicpostentry_unloaded_panics pmEx 9).1 (by decide),
   (publicpostentry_unloaded_panics pmEx 2).2 postTwo (by decide)⟩

end UChat
